import Mathlib

/-!
Verification of the configuration reduction and filtering engine of
`ush/metviewer/make_multi_mv_vx_plots.py`.

The plot configuration dictionary is a four-level nested insertion-ordered
mapping (Python dict): metric -> field -> level -> list of thresholds.  We
model the ordered dicts as association lists.  Fatal errors (`raise` in the
Python source) are modelled with `Except`; logged warnings are modelled as
explicit warning values collected in a list (the logging side effects
themselves are out of scope).

Python set operations (`set(..).intersection(..)`, `set(..).difference(..)`)
produce collections whose iteration order is unspecified; only the set of
elements is determined by the source.  We model them as `filter` followed by
`dedup`, and state every property about such values up to set membership.
-/

/-- Threshold lists as they appear at the leaves of the plot configuration
dictionary (`threshes_list` in the source). -/
abbrev ThreshList := List String

/-- The `levels_threshes_dict` mapping of the source: level -> threshold list. -/
abbrev LevelsThreshesDict := List (String × ThreshList)

/-- The `fields_levels_threshes_dict` mapping of the source:
field -> level -> threshold list. -/
abbrev FieldsLevelsThreshesDict := List (String × LevelsThreshesDict)

/-- The `metrics_fields_levels_threshes_dict` mapping of the source (the plot
configuration tree): metric -> field -> level -> threshold list. -/
abbrev MetricsDict := List (String × FieldsLevelsThreshesDict)

/-- The eight filter lists taken from the command-line options
`--incl_only_[metrics|fields|levels|threshes]` and
`--excl_[metrics|fields|levels|threshes]` (fields of `args` in the source). -/
structure Args where
  inclOnlyMetrics : List String
  exclMetrics : List String
  inclOnlyFields : List String
  exclFields : List String
  inclOnlyLevels : List String
  exclLevels : List String
  inclOnlyThreshes : List String
  exclThreshes : List String
deriving DecidableEq

/-- The four axes of the plot configuration dictionary. -/
inductive Axis where
  | metrics
  | fields
  | levels
  | threshes
deriving DecidableEq

/-- The incl_only list of `args` for a given axis. -/
def Args.inclOnly (args : Args) : Axis → List String
  | .metrics => args.inclOnlyMetrics
  | .fields => args.inclOnlyFields
  | .levels => args.inclOnlyLevels
  | .threshes => args.inclOnlyThreshes

/-- The excl list of `args` for a given axis. -/
def Args.excl (args : Args) : Axis → List String
  | .metrics => args.exclMetrics
  | .fields => args.exclFields
  | .levels => args.exclLevels
  | .threshes => args.exclThreshes

/-- The fatal errors (`raise ValueError` / `raise Exception`) of the source.
Each constructor carries the data printed in the corresponding message. -/
inductive Err where
  /-- main(), lines 1283-1331: an `--incl_only_*` and the matching `--excl_*`
  option were both specified. -/
  | bothInclOnlyAndExcl : Axis → Err
  /-- Lines 186-209: thresholds passed to an option that are not valid for the
  database.  Carries the option name, the offending thresholds
  (`threshes_not_in_db`) and the valid set (`valid_threshes_for_db`). -/
  | threshesNotValidForDb : String → List String → List String → Err
  /-- Lines 218-234: a metric needing thresholds has an empty threshold list
  at (metric, field, level). -/
  | emptyThreshList : String → String → String → Err
  /-- Lines 235-251: a metric not needing thresholds has a non-empty threshold
  list at (metric, field, level). -/
  | nonemptyThreshList : String → String → String → Err
  /-- Lines 424-443: every value passed to an `--incl_only_*` option was
  removed because none appears in the plot configuration file. -/
  | inclOnlyEmptiedOut : Axis → Err
  /-- Lines 472-486, 521-535, 577-592, 655-670: no metric-field-level-threshold
  combinations remain after reducing along the given axis. -/
  | noCombosRemain : Axis → Err
deriving DecidableEq

/-- The logged warnings of the reduction engine. -/
inductive Warn where
  /-- Lines 262-413: a value passed to an option does not appear in the plot
  configuration file and is removed from the option list.  Carries the option
  name and the value. -/
  | valueNotInConfig : String → String → Warn
  /-- Lines 716-824: a value passed to an `--incl_only_*` option no longer
  appears anywhere in the reduced plot configuration dictionary.  Carries the
  option name and the value. -/
  | deadInclOnlyValue : String → String → Warn
deriving DecidableEq

/-- The value a warning is about. -/
def Warn.value : Warn → String
  | .valueNotInConfig _ v => v
  | .deadInclOnlyValue _ v => v

/-- Lines 186-209: `list(set(threshes_list_for_option).difference(valid_threshes_for_db))`,
the thresholds passed to an option that are not valid for the database.  The
Python value is an unordered duplicate-free collection; we normalize it as a
deduplicated filter. -/
def threshesNotInDb (threshesForOption validThreshesForDb : List String) : List String :=
  (threshesForOption.filter (fun th => decide (th ∉ validThreshesForDb))).dedup

/-- Lines 186-209: ensure that any threshold passed to `--incl_only_threshes`
or `--excl_threshes` is valid for the METviewer database; the loop visits the
two options in that order and raises on the first offending option, reporting
all of that option's offending thresholds and the valid set. -/
def validateThreshesVsDb (inclOnlyThreshes exclThreshes validThreshesForDb : List String) :
    Except Err Unit :=
  if (threshesNotInDb inclOnlyThreshes validThreshesForDb).isEmpty = false then
    .error (.threshesNotValidForDb "incl_only_threshes"
      (threshesNotInDb inclOnlyThreshes validThreshesForDb) validThreshesForDb)
  else if (threshesNotInDb exclThreshes validThreshesForDb).isEmpty = false then
    .error (.threshesNotValidForDb "excl_threshes"
      (threshesNotInDb exclThreshes validThreshesForDb) validThreshesForDb)
  else
    .ok ()

/-- Lines 217-251, innermost loop: check the threshold lists of the levels of
one (metric, field) pair. -/
def shapeCheckLevels (needsThresh : String → Bool) (metric field : String) :
    LevelsThreshesDict → Except Err Unit
  | [] => .ok ()
  | (level, threshesList) :: rest =>
    if needsThresh metric && threshesList.isEmpty then
      .error (.emptyThreshList metric field level)
    else if !needsThresh metric && !threshesList.isEmpty then
      .error (.nonemptyThreshList metric field level)
    else
      shapeCheckLevels needsThresh metric field rest

/-- Lines 216-251, middle loop: check the fields of one metric. -/
def shapeCheckFields (needsThresh : String → Bool) (metric : String) :
    FieldsLevelsThreshesDict → Except Err Unit
  | [] => .ok ()
  | (field, levelsDict) :: rest =>
    match shapeCheckLevels needsThresh metric field levelsDict with
    | .error e => .error e
    | .ok () => shapeCheckFields needsThresh metric rest

/-- Lines 215-251: ensure that metric-field-level combinations with metrics
that require thresholds have a non-empty threshold list and those that do not
have an empty one; raises on the first violation. -/
def shapeCheck (needsThresh : String → Bool) : MetricsDict → Except Err Unit
  | [] => .ok ()
  | (metric, fieldsDict) :: rest =>
    match shapeCheckFields needsThresh metric fieldsDict with
    | .error e => .error e
    | .ok () => shapeCheck needsThresh rest

/-- The threshold-requirement invariant of the plot configuration dictionary:
every (metric, field, level) leaf has a non-empty threshold list exactly when
its metric requires a threshold. -/
def threshInvariant (needsThresh : String → Bool) (t : MetricsDict) : Prop :=
  ∀ p ∈ t, ∀ q ∈ p.2, ∀ r ∈ q.2, (needsThresh p.1 = true ↔ r.2 ≠ [])

instance (needsThresh : String → Bool) (t : MetricsDict) :
    Decidable (threshInvariant needsThresh t) := by
  unfold threshInvariant
  infer_instance

/-- The metric keys of the plot configuration dictionary. -/
def metricsInDict (t : MetricsDict) : List String := t.map (fun p => p.1)

/-- The field keys appearing under at least one metric. -/
def fieldsInDict (t : MetricsDict) : List String :=
  t.flatMap (fun p => p.2.map (fun q => q.1))

/-- The level keys appearing under at least one metric-field combination. -/
def levelsInDict (t : MetricsDict) : List String :=
  t.flatMap (fun p => p.2.flatMap (fun q => q.2.map (fun r => r.1)))

/-- The thresholds appearing in the list of at least one metric-field-level
combination. -/
def threshesInDict (t : MetricsDict) : List String :=
  t.flatMap (fun p => p.2.flatMap (fun q => q.2.flatMap (fun r => r.2)))

/-- Lines 262-413, one option: remove from the option list every value that
does not appear in the plot configuration dictionary, issuing one warning per
removed value. -/
def cleanOptionList (optionName : String) (present : String → Bool) (l : List String) :
    List String × List Warn :=
  (l.filter present,
   (l.filter (fun v => !present v)).map (Warn.valueNotInConfig optionName))

/-- Lines 262-443: clean all eight option lists against the plot configuration
dictionary, collecting the warnings; then (lines 415-443) raise if an
originally non-empty `--incl_only_*` list has been emptied out, checking the
axes in the fixed order metrics, fields, levels, threshes. -/
def cleanArgs (args : Args) (t : MetricsDict) : Except Err (Args × List Warn) :=
  let mPresent := fun v => decide (v ∈ metricsInDict t)
  let fPresent := fun v => decide (v ∈ fieldsInDict t)
  let lPresent := fun v => decide (v ∈ levelsInDict t)
  let tPresent := fun v => decide (v ∈ threshesInDict t)
  let im := cleanOptionList "incl_only_metrics" mPresent args.inclOnlyMetrics
  let em := cleanOptionList "excl_metrics" mPresent args.exclMetrics
  let ifl := cleanOptionList "incl_only_fields" fPresent args.inclOnlyFields
  let efl := cleanOptionList "excl_fields" fPresent args.exclFields
  let il := cleanOptionList "incl_only_levels" lPresent args.inclOnlyLevels
  let el := cleanOptionList "excl_levels" lPresent args.exclLevels
  let it := cleanOptionList "incl_only_threshes" tPresent args.inclOnlyThreshes
  let et := cleanOptionList "excl_threshes" tPresent args.exclThreshes
  if !args.inclOnlyMetrics.isEmpty && im.1.isEmpty then
    .error (.inclOnlyEmptiedOut .metrics)
  else if !args.inclOnlyFields.isEmpty && ifl.1.isEmpty then
    .error (.inclOnlyEmptiedOut .fields)
  else if !args.inclOnlyLevels.isEmpty && il.1.isEmpty then
    .error (.inclOnlyEmptiedOut .levels)
  else if !args.inclOnlyThreshes.isEmpty && it.1.isEmpty then
    .error (.inclOnlyEmptiedOut .threshes)
  else
    .ok ({ inclOnlyMetrics := im.1, exclMetrics := em.1,
           inclOnlyFields := ifl.1, exclFields := efl.1,
           inclOnlyLevels := il.1, exclLevels := el.1,
           inclOnlyThreshes := it.1, exclThreshes := et.1 },
         im.2 ++ em.2 ++ ifl.2 ++ efl.2 ++ il.2 ++ el.2 ++ it.2 ++ et.2)

/-- Lines 456-466: reduce the plot configuration dictionary along the metric
axis.  The incl-only pass pops every metric of the valid-metric universe that
is not in the cleaned incl-only list; the excl pass pops every metric of the
cleaned excl list.  Each pass runs only when both the original and the cleaned
option list are non-empty. -/
def stepMetrics (validVxMetrics : List String) (argsOrig argsC : Args) (t : MetricsDict) :
    MetricsDict :=
  let t1 :=
    if !argsOrig.inclOnlyMetrics.isEmpty && !argsC.inclOnlyMetrics.isEmpty then
      t.filter (fun p =>
        !(decide (p.1 ∈ validVxMetrics) && decide (p.1 ∉ argsC.inclOnlyMetrics)))
    else t
  if !argsOrig.exclMetrics.isEmpty && !argsC.exclMetrics.isEmpty then
    t1.filter (fun p => decide (p.1 ∉ argsC.exclMetrics))
  else t1

/-- Lines 513-515: remove metric keys whose fields dictionary has become
empty. -/
def pruneEmptyMetrics (t : MetricsDict) : MetricsDict :=
  t.filter (fun p => !p.2.isEmpty)

/-- Lines 488-515: reduce along the field axis (incl-only pass, excl pass,
then removal of emptied metric keys). -/
def stepFields (validFcstFields : List String) (argsOrig argsC : Args) (t : MetricsDict) :
    MetricsDict :=
  let t1 :=
    if !argsOrig.inclOnlyFields.isEmpty && !argsC.inclOnlyFields.isEmpty then
      t.map (fun p => (p.1, p.2.filter (fun q =>
        !(decide (q.1 ∈ validFcstFields) && decide (q.1 ∉ argsC.inclOnlyFields)))))
    else t
  let t2 :=
    if !argsOrig.exclFields.isEmpty && !argsC.exclFields.isEmpty then
      t1.map (fun p => (p.1, p.2.filter (fun q => decide (q.1 ∉ argsC.exclFields))))
    else t1
  pruneEmptyMetrics t2

/-- Lines 562-571: remove field keys whose levels dictionary has become empty,
then metric keys whose fields dictionary has become empty. -/
def pruneEmptyFieldsThenMetrics (t : MetricsDict) : MetricsDict :=
  (t.map (fun p => (p.1, p.2.filter (fun q => !q.2.isEmpty)))).filter
    (fun p => !p.2.isEmpty)

/-- Lines 537-571: reduce along the level axis (incl-only pass, excl pass,
then bottom-up removal of emptied field and metric keys). -/
def stepLevels (validFcstLevels : List String) (argsOrig argsC : Args) (t : MetricsDict) :
    MetricsDict :=
  let t1 :=
    if !argsOrig.inclOnlyLevels.isEmpty && !argsC.inclOnlyLevels.isEmpty then
      t.map (fun p => (p.1, p.2.map (fun q => (q.1, q.2.filter (fun r =>
        !(decide (r.1 ∈ validFcstLevels) && decide (r.1 ∉ argsC.inclOnlyLevels)))))))
    else t
  let t2 :=
    if !argsOrig.exclLevels.isEmpty && !argsC.exclLevels.isEmpty then
      t1.map (fun p => (p.1, p.2.map (fun q =>
        (q.1, q.2.filter (fun r => decide (r.1 ∉ argsC.exclLevels))))))
    else t1
  pruneEmptyFieldsThenMetrics t2

/-- Lines 602-609: `list(set(threshes_list).intersection(args.incl_only_threshes))`,
keeping only the named thresholds (set semantics, order unspecified in the
source). -/
def threshIntersection (threshesList inclOnlyThreshes : List String) : ThreshList :=
  (threshesList.filter (fun th => decide (th ∈ inclOnlyThreshes))).dedup

/-- Lines 618-627: `list(set(threshes_list).difference(args.excl_threshes))`,
dropping the named thresholds (set semantics, order unspecified in the
source). -/
def threshDifference (threshesList exclThreshes : List String) : ThreshList :=
  (threshesList.filter (fun th => decide (th ∉ exclThreshes))).dedup

/-- Lines 638-645: remove a level key when the metric requires a threshold and
the threshold list is empty; an empty list is retained when the metric does
not require a threshold. -/
def pruneThreshLevels (needsM : Bool) (ls : LevelsThreshesDict) : LevelsThreshesDict :=
  ls.filter (fun r => !(needsM && r.2.isEmpty))

/-- Lines 637-647: prune the levels of every field of one metric, then remove
field keys whose levels dictionary has become empty. -/
def pruneThreshFields (needsM : Bool) (fs : FieldsLevelsThreshesDict) :
    FieldsLevelsThreshesDict :=
  (fs.map (fun q => (q.1, pruneThreshLevels needsM q.2))).filter (fun q => !q.2.isEmpty)

/-- Lines 636-649: bottom-up pruning after threshold filtering: remove emptied
threshold-requiring level keys, then emptied field keys, then emptied metric
keys. -/
def pruneThresh (needsThresh : String → Bool) (t : MetricsDict) : MetricsDict :=
  (t.map (fun p => (p.1, pruneThreshFields (needsThresh p.1) p.2))).filter
    (fun p => !p.2.isEmpty)

/-- Lines 594-609: the incl-only pass of the threshold axis, replacing every
leaf list by its set-intersection with the cleaned option list; runs only when
both the original and the cleaned option list are non-empty. -/
def threshFilterInclOnly (argsOrig argsC : Args) (t : MetricsDict) : MetricsDict :=
  if !argsOrig.inclOnlyThreshes.isEmpty && !argsC.inclOnlyThreshes.isEmpty then
    t.map (fun p => (p.1, p.2.map (fun q => (q.1, q.2.map (fun r =>
      (r.1, threshIntersection r.2 argsC.inclOnlyThreshes))))))
  else t

/-- Lines 611-627: the excl pass of the threshold axis, replacing every leaf
list by its set-difference with the cleaned option list; runs only when both
the original and the cleaned option list are non-empty. -/
def threshFilterExcl (argsOrig argsC : Args) (t : MetricsDict) : MetricsDict :=
  if !argsOrig.exclThreshes.isEmpty && !argsC.exclThreshes.isEmpty then
    t.map (fun p => (p.1, p.2.map (fun q => (q.1, q.2.map (fun r =>
      (r.1, threshDifference r.2 argsC.exclThreshes))))))
  else t

/-- Lines 594-649: reduce along the threshold axis (set-intersection incl-only
pass, set-difference excl pass, then bottom-up pruning). -/
def stepThreshes (needsThresh : String → Bool) (argsOrig argsC : Args) (t : MetricsDict) :
    MetricsDict :=
  pruneThresh needsThresh (threshFilterExcl argsOrig argsC
    (threshFilterInclOnly argsOrig argsC t))

/-- Lines 445-670: the axis-by-axis reduction of the plot configuration
dictionary, with an emptiness check raising a fatal error immediately after
each axis is processed. -/
def reduceTree (needsThresh : String → Bool)
    (validVxMetrics validFcstFields validFcstLevels : List String)
    (argsOrig argsC : Args) (t : MetricsDict) : Except Err MetricsDict :=
  if (stepMetrics validVxMetrics argsOrig argsC t).isEmpty then
    .error (.noCombosRemain .metrics)
  else if (stepFields validFcstFields argsOrig argsC
      (stepMetrics validVxMetrics argsOrig argsC t)).isEmpty then
    .error (.noCombosRemain .fields)
  else if (stepLevels validFcstLevels argsOrig argsC
      (stepFields validFcstFields argsOrig argsC
        (stepMetrics validVxMetrics argsOrig argsC t))).isEmpty then
    .error (.noCombosRemain .levels)
  else if (stepThreshes needsThresh argsOrig argsC
      (stepLevels validFcstLevels argsOrig argsC
        (stepFields validFcstFields argsOrig argsC
          (stepMetrics validVxMetrics argsOrig argsC t)))).isEmpty then
    .error (.noCombosRemain .threshes)
  else
    .ok (stepThreshes needsThresh argsOrig argsC
      (stepLevels validFcstLevels argsOrig argsC
        (stepFields validFcstFields argsOrig argsC
          (stepMetrics validVxMetrics argsOrig argsC t))))

/-- Lines 716-824: after the whole reduction, warn about every value of an
`--incl_only_*` option that no longer appears anywhere in the reduced plot
configuration dictionary. -/
def deadFilterWarnings (argsC : Args) (t : MetricsDict) : List Warn :=
  (argsC.inclOnlyMetrics.filter (fun v => decide (v ∉ metricsInDict t))).map
      (Warn.deadInclOnlyValue "incl_only_metrics")
    ++ (argsC.inclOnlyFields.filter (fun v => decide (v ∉ fieldsInDict t))).map
      (Warn.deadInclOnlyValue "incl_only_fields")
    ++ (argsC.inclOnlyLevels.filter (fun v => decide (v ∉ levelsInDict t))).map
      (Warn.deadInclOnlyValue "incl_only_levels")
    ++ (argsC.inclOnlyThreshes.filter (fun v => decide (v ∉ threshesInDict t))).map
      (Warn.deadInclOnlyValue "incl_only_threshes")

/-- Lines 186-824 of `make_multi_mv_vx_plots`: database-threshold validation,
eager shape check, option-list cleaning, axis-by-axis reduction, and final
dead-filter diagnostics.  Returns the reduced dictionary together with all
warnings issued. -/
def makeMultiReduce (needsThresh : String → Bool)
    (validVxMetrics validFcstFields validFcstLevels validThreshesForDb : List String)
    (args : Args) (t : MetricsDict) : Except Err (MetricsDict × List Warn) :=
  match validateThreshesVsDb args.inclOnlyThreshes args.exclThreshes validThreshesForDb with
  | .error e => .error e
  | .ok () =>
    match shapeCheck needsThresh t with
    | .error e => .error e
    | .ok () =>
      match cleanArgs args t with
      | .error e => .error e
      | .ok (argsC, ws1) =>
        match reduceTree needsThresh validVxMetrics validFcstFields validFcstLevels
            args argsC t with
        | .error e => .error e
        | .ok t4 => .ok (t4, ws1 ++ deadFilterWarnings argsC t4)

/-- main(), lines 1281-1331: for each of the four axes, in the fixed order
metrics, fields, levels, threshes, raise if both the `--incl_only_*` and the
`--excl_*` option of that axis were specified. -/
def checkMutualExclusivity (args : Args) : Except Err Unit :=
  if !args.inclOnlyMetrics.isEmpty && !args.exclMetrics.isEmpty then
    .error (.bothInclOnlyAndExcl .metrics)
  else if !args.inclOnlyFields.isEmpty && !args.exclFields.isEmpty then
    .error (.bothInclOnlyAndExcl .fields)
  else if !args.inclOnlyLevels.isEmpty && !args.exclLevels.isEmpty then
    .error (.bothInclOnlyAndExcl .levels)
  else if !args.inclOnlyThreshes.isEmpty && !args.exclThreshes.isEmpty then
    .error (.bothInclOnlyAndExcl .threshes)
  else .ok ()

/-- main(), lines 1281-1338: the mutual-exclusivity checks run on the parsed
arguments alone; only afterwards is the driver called, which reads the plot
configuration dictionary and reduces it. -/
def runMain (needsThresh : String → Bool)
    (validVxMetrics validFcstFields validFcstLevels validThreshesForDb : List String)
    (args : Args) (t : MetricsDict) : Except Err (MetricsDict × List Warn) :=
  match checkMutualExclusivity args with
  | .error e => .error e
  | .ok () =>
    makeMultiReduce needsThresh validVxMetrics validFcstFields validFcstLevels
      validThreshesForDb args t

/-- A fully resolved (metric, field, level, threshold) combination, i.e. the
parameters of one call to `make_single_mv_vx_plot` (lines 950-973). -/
abbrev Job := String × String × String × String

/-- The counters threaded through the dispatch loop (lines 849-851): the
number of calls to the plotting script, the number of images found on disk
afterwards, and the names of the images that failed to generate.
`jobsEmitted` is a ghost field recording the sequence of calls made, which
the source performs as side effects. -/
structure DispatchState where
  numMvCalls : Nat
  numImagesGenerated : Nat
  missingImageFns : List String
  jobsEmitted : List Job
deriving DecidableEq

/-- The initial dispatch state (lines 849-851). -/
def initDispatchState : DispatchState :=
  { numMvCalls := 0, numImagesGenerated := 0, missingImageFns := [], jobsEmitted := [] }

/-- Lines 967-986, the body of the innermost loop for one threshold:
increment `num_mv_calls`, call the plotting script, then either increment
`num_images_generated` or append the expected image name to
`missing_image_fns`.  The external script and the filesystem are modelled by
the oracles `imageExists` (does the expected png exist afterwards) and
`imageFn` (its basename). -/
def dispatchOne (imageExists : Job → Bool) (imageFn : Job → String)
    (s : DispatchState) (j : Job) : DispatchState :=
  let s1 : DispatchState :=
    { s with numMvCalls := s.numMvCalls + 1, jobsEmitted := s.jobsEmitted ++ [j] }
  if imageExists j then
    { s1 with numImagesGenerated := s1.numImagesGenerated + 1 }
  else
    { s1 with missingImageFns := s1.missingImageFns ++ [imageFn j] }

/-- Lines 874-1009: the dispatch loop over the reduced plot configuration
dictionary, nested metric, field, level, threshold, with `threshes_list`
replaced by `['']` whenever the metric does not need a threshold (line 939). -/
def dispatchLoop (needsThresh : String → Bool) (imageExists : Job → Bool)
    (imageFn : Job → String) (t : MetricsDict) (s0 : DispatchState) : DispatchState :=
  t.foldl (fun sm p =>
    p.2.foldl (fun sf q =>
      q.2.foldl (fun sl r =>
        (if needsThresh p.1 then r.2 else [""]).foldl
          (fun st th => dispatchOne imageExists imageFn st (p.1, q.1, r.1, th)) sl)
        sf)
      sm)
    s0

/-- The job sequence described by the specification: a nested traversal of the
dictionary in insertion order, statistic-major, then field, then level, then
threshold, with the single-element list containing the empty string
substituted when the metric does not require a threshold. -/
def jobsOfTree (needsThresh : String → Bool) (t : MetricsDict) : List Job :=
  t.flatMap (fun p => p.2.flatMap (fun q => q.2.flatMap (fun r =>
    (if needsThresh p.1 then r.2 else [""]).map (fun th => (p.1, q.1, r.1, th)))))

/-- The counter invariant of the dispatch loop: every call is accounted for by
exactly one generated image or one missing image name. -/
def countersBalanced (s : DispatchState) : Prop :=
  s.numMvCalls = s.numImagesGenerated + s.missingImageFns.length

instance (s : DispatchState) : Decidable (countersBalanced s) := by
  unfold countersBalanced
  infer_instance

lemma foldl_dispatchOne_jobsEmitted (imageExists : Job → Bool) (imageFn : Job → String)
    (js : List Job) (s : DispatchState) :
    (js.foldl (dispatchOne imageExists imageFn) s).jobsEmitted = s.jobsEmitted ++ js := by
  induction js generalizing s with
  | nil => simp
  | cons j js ih =>
    simp only [List.foldl_cons, ih, dispatchOne]
    split <;> simp

lemma foldl_flatMap_eq {α β σ : Type} (f : α → List β) (g : σ → β → σ) (l : List α)
    (s : σ) :
    (l.flatMap f).foldl g s = l.foldl (fun acc a => (f a).foldl g acc) s := by
  induction l generalizing s with
  | nil => rfl
  | cons a l ih => simp [List.flatMap_cons, List.foldl_append, ih]

lemma dispatchLoop_eq_foldl (needsThresh : String → Bool) (imageExists : Job → Bool)
    (imageFn : Job → String) (t : MetricsDict) (s : DispatchState) :
    dispatchLoop needsThresh imageExists imageFn t s
      = (jobsOfTree needsThresh t).foldl (dispatchOne imageExists imageFn) s := by
  unfold dispatchLoop jobsOfTree
  rw [foldl_flatMap_eq]
  refine List.foldl_ext _ _ _ ?_
  intro sm p _
  rw [foldl_flatMap_eq]
  refine List.foldl_ext _ _ _ ?_
  intro sf q _
  rw [foldl_flatMap_eq]
  refine List.foldl_ext _ _ _ ?_
  intro sl r _
  rw [List.foldl_map]

/-- The needs-threshold flags of the order-contract example: the metric auc
requires a threshold, bias does not. -/
def exampleNeedsThresh : String → Bool := fun m => m == "auc"

/-- The plot configuration dictionary of the order-contract example:
auc -> apcp -> 03h -> [th1, th2] and bias -> tmp -> 2m -> []. -/
def exampleOrderTree (th1 th2 : String) : MetricsDict :=
  [("auc", [("apcp", [("03h", [th1, th2])])]),
   ("bias", [("tmp", [("2m", [])])])]

/-- C1: the sequence of job tuples emitted by the dispatch loop is produced by
a nested traversal in insertion order, statistic-major, then field, then
level, then threshold, with the single-element list containing the empty
string substituted as the threshold list whenever the metric's needs-threshold
flag is false; in particular, for the tree
auc -> apcp -> 03h -> [th1, th2], bias -> tmp -> 2m -> [] the emitted sequence
is exactly [(auc, apcp, 03h, th1), (auc, apcp, 03h, th2), (bias, tmp, 2m, "")]. -/
theorem C1_dispatch_order :
    (∀ (needsThresh : String → Bool) (imageExists : Job → Bool)
       (imageFn : Job → String) (t : MetricsDict),
      (dispatchLoop needsThresh imageExists imageFn t initDispatchState).jobsEmitted
        = jobsOfTree needsThresh t) ∧
    (∀ (imageExists : Job → Bool) (imageFn : Job → String) (th1 th2 : String),
      (dispatchLoop exampleNeedsThresh imageExists imageFn (exampleOrderTree th1 th2)
          initDispatchState).jobsEmitted
        = [("auc", "apcp", "03h", th1), ("auc", "apcp", "03h", th2),
           ("bias", "tmp", "2m", "")]) := by
  have base : ∀ (needsThresh : String → Bool) (imageExists : Job → Bool)
      (imageFn : Job → String) (t : MetricsDict),
      (dispatchLoop needsThresh imageExists imageFn t initDispatchState).jobsEmitted
        = jobsOfTree needsThresh t := by
    intro needsThresh imageExists imageFn t
    rw [dispatchLoop_eq_foldl, foldl_dispatchOne_jobsEmitted]
    rfl
  refine ⟨base, ?_⟩
  intro imageExists imageFn th1 th2
  rw [base]
  rfl

lemma dispatchOne_balanced (imageExists : Job → Bool) (imageFn : Job → String)
    (s : DispatchState) (j : Job) :
    countersBalanced s → countersBalanced (dispatchOne imageExists imageFn s j) := by
  intro h
  unfold countersBalanced at h ⊢
  unfold dispatchOne
  split <;> simp [h] <;> omega

lemma foldl_dispatchOne_balanced (imageExists : Job → Bool) (imageFn : Job → String)
    (js : List Job) (s : DispatchState) (h : countersBalanced s) :
    countersBalanced (js.foldl (dispatchOne imageExists imageFn) s) := by
  induction js generalizing s with
  | nil => exact h
  | cons j js ih =>
    exact ih _ (dispatchOne_balanced imageExists imageFn s j h)

/-- C10: every dispatched job increments the attempted-calls counter by one
and contributes to exactly one of the images-generated counter or the
missing-images list, so the three counters satisfy
num_mv_calls = num_images_generated + length missing_image_fns at every point
of the dispatch loop (after any prefix of the job sequence) and at its end. -/
theorem C10_counter_invariant :
    (∀ (imageExists : Job → Bool) (imageFn : Job → String) (s : DispatchState) (j : Job),
      countersBalanced s → countersBalanced (dispatchOne imageExists imageFn s j)) ∧
    (∀ (imageExists : Job → Bool) (imageFn : Job → String) (js : List Job) (n : Nat),
      countersBalanced ((js.take n).foldl (dispatchOne imageExists imageFn)
        initDispatchState)) ∧
    (∀ (needsThresh : String → Bool) (imageExists : Job → Bool)
       (imageFn : Job → String) (t : MetricsDict),
      countersBalanced (dispatchLoop needsThresh imageExists imageFn t
        initDispatchState)) := by
  have hinit : countersBalanced initDispatchState := by decide
  refine ⟨dispatchOne_balanced, ?_, ?_⟩
  · intro imageExists imageFn js n
    exact foldl_dispatchOne_balanced imageExists imageFn (js.take n) _ hinit
  · intro needsThresh imageExists imageFn t
    rw [dispatchLoop_eq_foldl]
    exact foldl_dispatchOne_balanced imageExists imageFn _ _ hinit

/-- Closed witness for C10: the step-preservation conjunct applied at a
concrete state and job. -/
theorem C10_counter_invariant_witness :
    countersBalanced (dispatchOne (fun _ => true) (fun _ => "plot.png")
      initDispatchState ("auc", "apcp", "03h", "gt0.0")) :=
  C10_counter_invariant.1 (fun _ => true) (fun _ => "plot.png") initDispatchState
    ("auc", "apcp", "03h", "gt0.0") (by decide)

lemma pruneThreshLevels_idem (b : Bool) (ls : LevelsThreshesDict) :
    pruneThreshLevels b (pruneThreshLevels b ls) = pruneThreshLevels b ls := by
  simp [pruneThreshLevels, List.filter_filter]

lemma pruneThreshFields_cons (b : Bool) (q : String × LevelsThreshesDict)
    (fs : FieldsLevelsThreshesDict) :
    pruneThreshFields b (q :: fs)
      = if (pruneThreshLevels b q.2).isEmpty then pruneThreshFields b fs
        else (q.1, pruneThreshLevels b q.2) :: pruneThreshFields b fs := by
  simp only [pruneThreshFields, List.map_cons, List.filter_cons]
  split <;> simp_all

lemma pruneThreshFields_idem (b : Bool) (fs : FieldsLevelsThreshesDict) :
    pruneThreshFields b (pruneThreshFields b fs) = pruneThreshFields b fs := by
  induction fs with
  | nil => rfl
  | cons q fs ih =>
    rw [pruneThreshFields_cons]
    by_cases h : (pruneThreshLevels b q.2).isEmpty
    · simp [h, ih]
    · simp only [h, if_neg, Bool.false_eq_true, not_false_eq_true, ite_false]
      rw [pruneThreshFields_cons]
      simp [pruneThreshLevels_idem, h, ih]

lemma pruneThresh_cons (needsThresh : String → Bool)
    (p : String × FieldsLevelsThreshesDict) (t : MetricsDict) :
    pruneThresh needsThresh (p :: t)
      = if (pruneThreshFields (needsThresh p.1) p.2).isEmpty then pruneThresh needsThresh t
        else (p.1, pruneThreshFields (needsThresh p.1) p.2) :: pruneThresh needsThresh t := by
  simp only [pruneThresh, List.map_cons, List.filter_cons]
  split <;> simp_all

lemma pruneThresh_idem (needsThresh : String → Bool) (t : MetricsDict) :
    pruneThresh needsThresh (pruneThresh needsThresh t) = pruneThresh needsThresh t := by
  induction t with
  | nil => rfl
  | cons p t ih =>
    rw [pruneThresh_cons]
    by_cases h : (pruneThreshFields (needsThresh p.1) p.2).isEmpty
    · simp [h, ih]
    · simp only [h, Bool.false_eq_true, not_false_eq_true, ite_false]
      rw [pruneThresh_cons]
      simp [pruneThreshFields_idem, h, ih]

lemma pruneEmptyFieldsThenMetrics_cons (p : String × FieldsLevelsThreshesDict)
    (t : MetricsDict) :
    pruneEmptyFieldsThenMetrics (p :: t)
      = if (p.2.filter (fun q => !q.2.isEmpty)).isEmpty then pruneEmptyFieldsThenMetrics t
        else (p.1, p.2.filter (fun q => !q.2.isEmpty)) :: pruneEmptyFieldsThenMetrics t := by
  by_cases h : (p.2.filter (fun q => !q.2.isEmpty)).isEmpty
  · simp [pruneEmptyFieldsThenMetrics, List.filter_cons, h]
  · simp [pruneEmptyFieldsThenMetrics, List.filter_cons, h]

lemma pruneEmptyFieldsThenMetrics_idem (t : MetricsDict) :
    pruneEmptyFieldsThenMetrics (pruneEmptyFieldsThenMetrics t)
      = pruneEmptyFieldsThenMetrics t := by
  induction t with
  | nil => rfl
  | cons p t ih =>
    rw [pruneEmptyFieldsThenMetrics_cons]
    by_cases h : (p.2.filter (fun q => !q.2.isEmpty)).isEmpty
    · simp [h, ih]
    · simp only [h, Bool.false_eq_true, not_false_eq_true, ite_false]
      rw [pruneEmptyFieldsThenMetrics_cons]
      simp [List.filter_filter, h, ih]

lemma pruneEmptyMetrics_idem (t : MetricsDict) :
    pruneEmptyMetrics (pruneEmptyMetrics t) = pruneEmptyMetrics t := by
  simp [pruneEmptyMetrics, List.filter_filter]

/-- C9: the bottom-up empty-branch pruning steps are idempotent: rerunning the
threshold-axis prune (lines 636-649), the level-axis prune (lines 562-571), or
the field-axis prune (lines 513-515) on its own output removes nothing further
and yields an identical dictionary. -/
theorem C9_prune_idempotent :
    (∀ (needsThresh : String → Bool) (t : MetricsDict),
      pruneThresh needsThresh (pruneThresh needsThresh t) = pruneThresh needsThresh t) ∧
    (∀ t : MetricsDict,
      pruneEmptyFieldsThenMetrics (pruneEmptyFieldsThenMetrics t)
        = pruneEmptyFieldsThenMetrics t) ∧
    (∀ t : MetricsDict, pruneEmptyMetrics (pruneEmptyMetrics t) = pruneEmptyMetrics t) :=
  ⟨pruneThresh_idem, pruneEmptyFieldsThenMetrics_idem, pruneEmptyMetrics_idem⟩

/-- An argument record whose only non-empty option list is
`--incl_only_threshes`, passed the single threshold z. -/
def inclOnlyThreshesArgs (z : String) : Args :=
  { inclOnlyMetrics := [], exclMetrics := [], inclOnlyFields := [], exclFields := [],
    inclOnlyLevels := [], exclLevels := [], inclOnlyThreshes := [z], exclThreshes := [] }

/-- C2: threshold filtering has set semantics per (metric, field, level) leaf:
for the leaf list [a, b, c], excluding [b] yields a list set-equal to
the set of a and c; include-only [a, c] yields a list set-equal to the set of
a and c; include-only [z] with z not among the leaf's thresholds yields the
empty list, and for a threshold-requiring metric the threshold-axis step then
prunes that leaf (and its emptied ancestors) away. -/
theorem C2_threshold_set_semantics (a b c z metric field level : String)
    (needsThresh : String → Bool) (hab : a ≠ b) (hbc : b ≠ c)
    (hz : z ∉ [a, b, c]) (hm : needsThresh metric = true) :
    (∀ x, x ∈ threshDifference [a, b, c] [b] ↔ x = a ∨ x = c) ∧
    (∀ x, x ∈ threshIntersection [a, b, c] [a, c] ↔ x = a ∨ x = c) ∧
    threshIntersection [a, b, c] [z] = [] ∧
    stepThreshes needsThresh (inclOnlyThreshesArgs z) (inclOnlyThreshesArgs z)
      [(metric, [(field, [(level, [a, b, c])])])] = [] := by
  simp only [List.mem_cons, List.not_mem_nil, or_false, not_or] at hz
  obtain ⟨hza, hzb, hzc⟩ := hz
  have hInter : threshIntersection [a, b, c] [z] = [] := by
    simp [threshIntersection, List.dedup_eq_nil, List.filter_eq_nil_iff]
    refine ⟨fun h => absurd h.symm hza, fun h => absurd h.symm hzb,
      fun h => absurd h.symm hzc⟩
  refine ⟨?_, ?_, hInter, ?_⟩
  · intro x
    simp only [threshDifference, List.mem_dedup, List.mem_filter, List.mem_cons,
      List.not_mem_nil, or_false, decide_eq_true_eq]
    constructor
    · rintro ⟨rfl | rfl | rfl, hx⟩
      · exact Or.inl rfl
      · exact absurd rfl hx
      · exact Or.inr rfl
    · rintro (rfl | rfl)
      · exact ⟨Or.inl rfl, hab⟩
      · exact ⟨Or.inr (Or.inr rfl), fun h => hbc h.symm⟩
  · intro x
    simp only [threshIntersection, List.mem_dedup, List.mem_filter, List.mem_cons,
      List.not_mem_nil, or_false, decide_eq_true_eq]
    constructor
    · rintro ⟨rfl | rfl | rfl, hx⟩
      · exact Or.inl rfl
      · rcases hx with rfl | rfl
        · exact absurd rfl hab
        · exact absurd rfl hbc
      · exact Or.inr rfl
    · rintro (rfl | rfl)
      · exact ⟨Or.inl rfl, Or.inl rfl⟩
      · exact ⟨Or.inr (Or.inr rfl), Or.inr rfl⟩
  · simp [stepThreshes, threshFilterInclOnly, threshFilterExcl, inclOnlyThreshesArgs,
      hInter, pruneThresh, pruneThreshFields, pruneThreshLevels, hm]

/-- Closed witness for C2: the set semantics evaluated at concrete thresholds,
with the emptied leaf pruned away by the threshold-axis step. -/
theorem C2_threshold_set_semantics_witness :
    "gt0.0" ∈ threshDifference ["gt0.0", "gt1.0", "gt2.0"] ["gt1.0"]
    ∧ "gt2.0" ∈ threshIntersection ["gt0.0", "gt1.0", "gt2.0"] ["gt0.0", "gt2.0"]
    ∧ threshIntersection ["gt0.0", "gt1.0", "gt2.0"] ["gt9.9"] = []
    ∧ stepThreshes exampleNeedsThresh (inclOnlyThreshesArgs "gt9.9")
        (inclOnlyThreshesArgs "gt9.9") [("auc", [("apcp", [("03h",
        ["gt0.0", "gt1.0", "gt2.0"])])])] = [] := by
  have h := C2_threshold_set_semantics "gt0.0" "gt1.0" "gt2.0" "gt9.9" "auc" "apcp"
    "03h" exampleNeedsThresh (by decide) (by decide) (by decide) (by decide)
  exact ⟨(h.1 "gt0.0").mpr (Or.inl rfl), (h.2.1 "gt2.0").mpr (Or.inr rfl),
    h.2.2.1, h.2.2.2⟩

lemma both_nonempty_cond (l m : List String) :
    (!l.isEmpty && !m.isEmpty) = true ↔ l ≠ [] ∧ m ≠ [] := by
  simp [List.isEmpty_eq_false]

lemma runMain_mutex_error (needsThresh : String → Bool)
    (validVxMetrics validFcstFields validFcstLevels validThreshesForDb : List String)
    (args : Args) (t : MetricsDict) (e : Err)
    (h : checkMutualExclusivity args = .error e) :
    runMain needsThresh validVxMetrics validFcstFields validFcstLevels
      validThreshesForDb args t = .error e := by
  unfold runMain
  rw [h]

/-- C5: for each of the four axes, if both the incl-only and the excl list of
that axis are non-empty, main() raises the mutual-exclusivity fatal error, and
the result does not depend on the plot configuration dictionary (which has not
yet been read at that point): the same error is returned for every dictionary
and every vocabulary. -/
theorem C5_mutual_exclusivity (args : Args)
    (h : (args.inclOnlyMetrics ≠ [] ∧ args.exclMetrics ≠ []) ∨
         (args.inclOnlyFields ≠ [] ∧ args.exclFields ≠ []) ∨
         (args.inclOnlyLevels ≠ [] ∧ args.exclLevels ≠ []) ∨
         (args.inclOnlyThreshes ≠ [] ∧ args.exclThreshes ≠ [])) :
    ∃ ax : Axis, args.inclOnly ax ≠ [] ∧ args.excl ax ≠ [] ∧
      ∀ (needsThresh : String → Bool)
        (validVxMetrics validFcstFields validFcstLevels validThreshesForDb : List String)
        (t : MetricsDict),
        runMain needsThresh validVxMetrics validFcstFields validFcstLevels
          validThreshesForDb args t = .error (.bothInclOnlyAndExcl ax) := by
  by_cases hm : args.inclOnlyMetrics ≠ [] ∧ args.exclMetrics ≠ []
  · refine ⟨.metrics, hm.1, hm.2, ?_⟩
    intro needsThresh vm vf vl vdb t
    refine runMain_mutex_error _ _ _ _ _ _ _ _ ?_
    unfold checkMutualExclusivity
    rw [if_pos ((both_nonempty_cond _ _).mpr hm)]
  · by_cases hf : args.inclOnlyFields ≠ [] ∧ args.exclFields ≠ []
    · refine ⟨.fields, hf.1, hf.2, ?_⟩
      intro needsThresh vm vf vl vdb t
      refine runMain_mutex_error _ _ _ _ _ _ _ _ ?_
      unfold checkMutualExclusivity
      rw [if_neg (fun hc => hm ((both_nonempty_cond _ _).mp hc)),
        if_pos ((both_nonempty_cond _ _).mpr hf)]
    · by_cases hl : args.inclOnlyLevels ≠ [] ∧ args.exclLevels ≠ []
      · refine ⟨.levels, hl.1, hl.2, ?_⟩
        intro needsThresh vm vf vl vdb t
        refine runMain_mutex_error _ _ _ _ _ _ _ _ ?_
        unfold checkMutualExclusivity
        rw [if_neg (fun hc => hm ((both_nonempty_cond _ _).mp hc)),
          if_neg (fun hc => hf ((both_nonempty_cond _ _).mp hc)),
          if_pos ((both_nonempty_cond _ _).mpr hl)]
      · have ht : args.inclOnlyThreshes ≠ [] ∧ args.exclThreshes ≠ [] := by
          rcases h with h | h | h | h
          · exact absurd h hm
          · exact absurd h hf
          · exact absurd h hl
          · exact h
        refine ⟨.threshes, ht.1, ht.2, ?_⟩
        intro needsThresh vm vf vl vdb t
        refine runMain_mutex_error _ _ _ _ _ _ _ _ ?_
        unfold checkMutualExclusivity
        rw [if_neg (fun hc => hm ((both_nonempty_cond _ _).mp hc)),
          if_neg (fun hc => hf ((both_nonempty_cond _ _).mp hc)),
          if_neg (fun hc => hl ((both_nonempty_cond _ _).mp hc)),
          if_pos ((both_nonempty_cond _ _).mpr ht)]

/-- An argument record that passes both `--incl_only_metrics` and
`--excl_metrics`. -/
def mutexExampleArgs : Args :=
  { inclOnlyMetrics := ["bias"], exclMetrics := ["auc"], inclOnlyFields := [],
    exclFields := [], inclOnlyLevels := [], exclLevels := [], inclOnlyThreshes := [],
    exclThreshes := [] }

/-- Closed witness for C5: with both metric options passed, the run fails with
the metric mutual-exclusivity error before the dictionary is consulted. -/
theorem C5_mutual_exclusivity_witness :
    runMain exampleNeedsThresh ["auc", "bias"] [] [] [] mutexExampleArgs []
      = .error (.bothInclOnlyAndExcl .metrics) := by
  obtain ⟨ax, h1, h2, h3⟩ := C5_mutual_exclusivity mutexExampleArgs
    (Or.inl ⟨by decide, by decide⟩)
  cases ax with
  | metrics => exact h3 exampleNeedsThresh ["auc", "bias"] [] [] [] []
  | fields => exact absurd rfl h1
  | levels => exact absurd rfl h1
  | threshes => exact absurd rfl h1

lemma mem_threshesNotInDb (x : String) (l validThreshesForDb : List String) :
    x ∈ threshesNotInDb l validThreshesForDb ↔ x ∈ l ∧ x ∉ validThreshesForDb := by
  simp [threshesNotInDb, List.mem_dedup, List.mem_filter]

lemma threshesNotInDb_nil (validThreshesForDb : List String) :
    threshesNotInDb [] validThreshesForDb = [] := rfl

lemma makeMultiReduce_validate_error (needsThresh : String → Bool)
    (validVxMetrics validFcstFields validFcstLevels validThreshesForDb : List String)
    (args : Args) (t : MetricsDict) (e : Err)
    (h : validateThreshesVsDb args.inclOnlyThreshes args.exclThreshes validThreshesForDb
      = .error e) :
    makeMultiReduce needsThresh validVxMetrics validFcstFields validFcstLevels
      validThreshesForDb args t = .error e := by
  unfold makeMultiReduce
  rw [h]

/-- C6: every threshold named on the command line, in either threshold option,
must belong to the legal threshold set of the database named in the plot
configuration; if any token is illegal the whole run fails with a fatal error
carrying the complete set of illegal tokens of the offending option and the
legal set.  (Mutual exclusivity guarantees at most one of the two threshold
option lists is non-empty, so that set is the set of all illegal tokens named
on the command line.) -/
theorem C6_thresh_legality (args : Args) (validThreshesForDb : List String)
    (hmu : args.inclOnlyThreshes = [] ∨ args.exclThreshes = [])
    (hbad : ∃ x ∈ args.inclOnlyThreshes ++ args.exclThreshes, x ∉ validThreshesForDb) :
    ∃ optionName bad,
      validateThreshesVsDb args.inclOnlyThreshes args.exclThreshes validThreshesForDb
        = .error (.threshesNotValidForDb optionName bad validThreshesForDb) ∧
      (∀ x, x ∈ bad ↔
        x ∈ args.inclOnlyThreshes ++ args.exclThreshes ∧ x ∉ validThreshesForDb) ∧
      ∀ (needsThresh : String → Bool)
        (validVxMetrics validFcstFields validFcstLevels : List String) (t : MetricsDict),
        makeMultiReduce needsThresh validVxMetrics validFcstFields validFcstLevels
          validThreshesForDb args t
          = .error (.threshesNotValidForDb optionName bad validThreshesForDb) := by
  obtain ⟨x0, hx0mem, hx0bad⟩ := hbad
  rcases hmu with hmu | hmu
  · rw [hmu] at hx0mem ⊢
    simp only [List.nil_append] at hx0mem
    have hne : threshesNotInDb args.exclThreshes validThreshesForDb ≠ [] := by
      intro hnil
      have := (mem_threshesNotInDb x0 args.exclThreshes validThreshesForDb).mpr
        ⟨hx0mem, hx0bad⟩
      rw [hnil] at this
      exact List.not_mem_nil x0 this
    have hval : validateThreshesVsDb [] args.exclThreshes validThreshesForDb
        = .error (.threshesNotValidForDb "excl_threshes"
            (threshesNotInDb args.exclThreshes validThreshesForDb)
            validThreshesForDb) := by
      unfold validateThreshesVsDb
      rw [threshesNotInDb_nil]
      rw [if_neg (by simp)]
      rw [if_pos (by simp [List.isEmpty_eq_false, hne])]
    refine ⟨"excl_threshes", threshesNotInDb args.exclThreshes validThreshesForDb,
      hval, ?_, ?_⟩
    · intro x
      simp [mem_threshesNotInDb]
    · intro needsThresh vm vf vl t
      refine makeMultiReduce_validate_error _ _ _ _ _ _ _ _ ?_
      rw [hmu]
      exact hval
  · rw [hmu] at hx0mem ⊢
    simp only [List.append_nil] at hx0mem
    have hne : threshesNotInDb args.inclOnlyThreshes validThreshesForDb ≠ [] := by
      intro hnil
      have := (mem_threshesNotInDb x0 args.inclOnlyThreshes validThreshesForDb).mpr
        ⟨hx0mem, hx0bad⟩
      rw [hnil] at this
      exact List.not_mem_nil x0 this
    have hval : validateThreshesVsDb args.inclOnlyThreshes [] validThreshesForDb
        = .error (.threshesNotValidForDb "incl_only_threshes"
            (threshesNotInDb args.inclOnlyThreshes validThreshesForDb)
            validThreshesForDb) := by
      unfold validateThreshesVsDb
      rw [if_pos (by simp [List.isEmpty_eq_false, hne])]
    refine ⟨"incl_only_threshes", threshesNotInDb args.inclOnlyThreshes validThreshesForDb,
      hval, ?_, ?_⟩
    · intro x
      simp [mem_threshesNotInDb]
    · intro needsThresh vm vf vl t
      refine makeMultiReduce_validate_error _ _ _ _ _ _ _ _ ?_
      rw [hmu]
      exact hval

/-- An argument record passing one threshold, illegal for the database, to
`--excl_threshes`. -/
def badThreshExampleArgs : Args :=
  { inclOnlyMetrics := [], exclMetrics := [], inclOnlyFields := [], exclFields := [],
    inclOnlyLevels := [], exclLevels := [], inclOnlyThreshes := [],
    exclThreshes := ["gt5.0"] }

/-- Closed witness for C6: one illegal threshold in `--excl_threshes` fails
the whole run, reporting the illegal token and the legal set. -/
theorem C6_thresh_legality_witness :
    makeMultiReduce exampleNeedsThresh [] [] [] ["gt0.0"] badThreshExampleArgs []
      = .error (.threshesNotValidForDb "excl_threshes" ["gt5.0"] ["gt0.0"]) := by
  obtain ⟨opt, bad, h1, h2, h3⟩ := C6_thresh_legality badThreshExampleArgs ["gt0.0"]
    (Or.inl rfl) ⟨"gt5.0", by decide, by decide⟩
  have h5 : validateThreshesVsDb badThreshExampleArgs.inclOnlyThreshes
      badThreshExampleArgs.exclThreshes ["gt0.0"]
      = .error (.threshesNotValidForDb "excl_threshes" ["gt5.0"] ["gt0.0"]) := rfl
  rw [h1] at h5
  obtain ⟨ho, hb, -⟩ : opt = "excl_threshes" ∧ bad = ["gt5.0"] ∧
      (["gt0.0"] : List String) = ["gt0.0"] := by
    simpa using h5
  subst ho
  subst hb
  exact h3 exampleNeedsThresh [] [] [] []

/-- Whether an error is a shape (threshold-requirement) violation reported by
the eager check of lines 215-251. -/
def Err.isShape : Err → Bool
  | .emptyThreshList _ _ _ => true
  | .nonemptyThreshList _ _ _ => true
  | _ => false

lemma shapeCheckLevels_ok_iff (needsThresh : String → Bool) (metric field : String)
    (ls : LevelsThreshesDict) :
    shapeCheckLevels needsThresh metric field ls = .ok () ↔
      ∀ r ∈ ls, (needsThresh metric = true ↔ r.2 ≠ []) := by
  induction ls with
  | nil => simp [shapeCheckLevels]
  | cons r rest ih =>
    obtain ⟨level, ths⟩ := r
    cases ths with
    | nil =>
      by_cases hn : needsThresh metric = true <;>
        simp [shapeCheckLevels, hn, ih, Bool.not_eq_true]
    | cons th ths =>
      by_cases hn : needsThresh metric = true <;>
        simp [shapeCheckLevels, hn, ih, Bool.not_eq_true]

lemma shapeCheckFields_ok_iff (needsThresh : String → Bool) (metric : String)
    (fs : FieldsLevelsThreshesDict) :
    shapeCheckFields needsThresh metric fs = .ok () ↔
      ∀ q ∈ fs, ∀ r ∈ q.2, (needsThresh metric = true ↔ r.2 ≠ []) := by
  induction fs with
  | nil => simp [shapeCheckFields]
  | cons q rest ih =>
    obtain ⟨field, ls⟩ := q
    cases h : shapeCheckLevels needsThresh metric field ls with
    | error e =>
      simp only [shapeCheckFields, h]
      constructor
      · intro hc
        exact absurd hc (by simp)
      · intro hc
        have hls : shapeCheckLevels needsThresh metric field ls = .ok () :=
          (shapeCheckLevels_ok_iff needsThresh metric field ls).mpr
            (fun r hr => hc (field, ls) (List.mem_cons_self _ _) r hr)
        rw [h] at hls
        exact absurd hls (by simp)
    | ok u =>
      cases u
      have hls := (shapeCheckLevels_ok_iff needsThresh metric field ls).mp h
      simp only [shapeCheckFields, h, ih]
      constructor
      · intro hc q hq r hr
        rcases List.mem_cons.mp hq with rfl | hq
        · exact hls r hr
        · exact hc q hq r hr
      · intro hc q hq r hr
        exact hc q (List.mem_cons_of_mem _ hq) r hr

lemma shapeCheck_ok_iff (needsThresh : String → Bool) (t : MetricsDict) :
    shapeCheck needsThresh t = .ok () ↔ threshInvariant needsThresh t := by
  induction t with
  | nil => simp [shapeCheck, threshInvariant]
  | cons p rest ih =>
    obtain ⟨metric, fs⟩ := p
    cases h : shapeCheckFields needsThresh metric fs with
    | error e =>
      simp only [shapeCheck, h]
      constructor
      · intro hc
        exact absurd hc (by simp)
      · intro hc
        have hfs : shapeCheckFields needsThresh metric fs = .ok () :=
          (shapeCheckFields_ok_iff needsThresh metric fs).mpr
            (fun q hq r hr => hc (metric, fs) (List.mem_cons_self _ _) q hq r hr)
        rw [h] at hfs
        exact absurd hfs (by simp)
    | ok u =>
      cases u
      have hfs := (shapeCheckFields_ok_iff needsThresh metric fs).mp h
      simp only [shapeCheck, h, ih]
      unfold threshInvariant
      constructor
      · intro hc p hp q hq r hr
        rcases List.mem_cons.mp hp with rfl | hp
        · exact hfs q hq r hr
        · exact hc p hp q hq r hr
      · intro hc p hp q hq r hr
        exact hc p (List.mem_cons_of_mem _ hp) q hq r hr

lemma shapeCheckLevels_error_isShape (needsThresh : String → Bool)
    (metric field : String) (ls : LevelsThreshesDict) (e : Err)
    (h : shapeCheckLevels needsThresh metric field ls = .error e) : e.isShape = true := by
  induction ls with
  | nil => exact absurd h (by simp [shapeCheckLevels])
  | cons r rest ih =>
    obtain ⟨level, ths⟩ := r
    simp only [shapeCheckLevels] at h
    split at h
    · cases h
      rfl
    · split at h
      · cases h
        rfl
      · exact ih h

lemma shapeCheckFields_error_isShape (needsThresh : String → Bool) (metric : String)
    (fs : FieldsLevelsThreshesDict) (e : Err)
    (h : shapeCheckFields needsThresh metric fs = .error e) : e.isShape = true := by
  induction fs with
  | nil => exact absurd h (by simp [shapeCheckFields])
  | cons q rest ih =>
    obtain ⟨field, ls⟩ := q
    simp only [shapeCheckFields] at h
    cases hls : shapeCheckLevels needsThresh metric field ls with
    | error e0 =>
      rw [hls] at h
      cases h
      exact shapeCheckLevels_error_isShape needsThresh metric field ls e hls
    | ok u =>
      cases u
      rw [hls] at h
      exact ih h

lemma shapeCheck_error_isShape (needsThresh : String → Bool) (t : MetricsDict) (e : Err)
    (h : shapeCheck needsThresh t = .error e) : e.isShape = true := by
  induction t with
  | nil => exact absurd h (by simp [shapeCheck])
  | cons p rest ih =>
    obtain ⟨metric, fs⟩ := p
    simp only [shapeCheck] at h
    cases hfs : shapeCheckFields needsThresh metric fs with
    | error e0 =>
      rw [hfs] at h
      cases h
      exact shapeCheckFields_error_isShape needsThresh metric fs e hfs
    | ok u =>
      cases u
      rw [hfs] at h
      exact ih h

lemma makeMultiReduce_shape_error (needsThresh : String → Bool)
    (validVxMetrics validFcstFields validFcstLevels validThreshesForDb : List String)
    (args : Args) (t : MetricsDict) (e : Err)
    (hv : validateThreshesVsDb args.inclOnlyThreshes args.exclThreshes validThreshesForDb
      = .ok ())
    (hs : shapeCheck needsThresh t = .error e) :
    makeMultiReduce needsThresh validVxMetrics validFcstFields validFcstLevels
      validThreshesForDb args t = .error e := by
  unfold makeMultiReduce
  rw [hv, hs]

/-- C7: the threshold-requirement shape invariant is checked once, eagerly: if
the loaded dictionary violates it, the run fails with a shape error, and it is
the same shape error for every filter specification whose threshold lists pass
the preceding database-validity check, i.e. the failure does not depend on any
filtering (which has not begun yet). -/
theorem C7_eager_shape_check (needsThresh : String → Bool) (t : MetricsDict)
    (hviol : ¬ threshInvariant needsThresh t) :
    ∃ e : Err, shapeCheck needsThresh t = .error e ∧ e.isShape = true ∧
      ∀ (args : Args)
        (validVxMetrics validFcstFields validFcstLevels validThreshesForDb : List String),
        validateThreshesVsDb args.inclOnlyThreshes args.exclThreshes validThreshesForDb
          = .ok () →
        makeMultiReduce needsThresh validVxMetrics validFcstFields validFcstLevels
          validThreshesForDb args t = .error e := by
  cases h : shapeCheck needsThresh t with
  | error e =>
    exact ⟨e, rfl, shapeCheck_error_isShape needsThresh t e h,
      fun args vm vf vl vdb hv =>
        makeMultiReduce_shape_error needsThresh vm vf vl vdb args t e hv h⟩
  | ok u =>
    cases u
    exact absurd ((shapeCheck_ok_iff needsThresh t).mp h) hviol

/-- An argument record with all eight option lists empty. -/
def emptyArgs : Args :=
  { inclOnlyMetrics := [], exclMetrics := [], inclOnlyFields := [], exclFields := [],
    inclOnlyLevels := [], exclLevels := [], inclOnlyThreshes := [], exclThreshes := [] }

/-- A dictionary violating the shape invariant: auc requires a threshold but
its (apcp, 03h) leaf has an empty threshold list. -/
def shapeBadTree : MetricsDict := [("auc", [("apcp", [("03h", [])])])]

/-- Closed witness for C7: the violating dictionary fails with the shape error
before any filtering. -/
theorem C7_eager_shape_check_witness :
    makeMultiReduce exampleNeedsThresh [] [] [] [] emptyArgs shapeBadTree
      = .error (.emptyThreshList "auc" "apcp" "03h") := by
  obtain ⟨e, h1, h2, h3⟩ := C7_eager_shape_check exampleNeedsThresh shapeBadTree
    (by decide)
  have h5 : shapeCheck exampleNeedsThresh shapeBadTree
      = .error (.emptyThreshList "auc" "apcp" "03h") := rfl
  rw [h1] at h5
  have he : e = .emptyThreshList "auc" "apcp" "03h" := by simpa using h5
  subst he
  exact h3 emptyArgs [] [] [] [] rfl

/-- Every (metric, field, level) chain of t2 descends from a chain of t1 with
the same metric name and the same threshold list. -/
def chainsPreserved (t1 t2 : MetricsDict) : Prop :=
  ∀ p ∈ t2, ∀ q ∈ p.2, ∀ r ∈ q.2, ∃ p0 ∈ t1, ∃ q0 ∈ p0.2, ∃ r0 ∈ q0.2,
    p0.1 = p.1 ∧ r0.2 = r.2

lemma chainsPreserved_refl (t : MetricsDict) : chainsPreserved t t :=
  fun p hp q hq r hr => ⟨p, hp, q, hq, r, hr, rfl, rfl⟩

lemma chainsPreserved_trans {t1 t2 t3 : MetricsDict} (h12 : chainsPreserved t1 t2)
    (h23 : chainsPreserved t2 t3) : chainsPreserved t1 t3 := by
  intro p hp q hq r hr
  obtain ⟨p2, hp2, q2, hq2, r2, hr2, he1, he2⟩ := h23 p hp q hq r hr
  obtain ⟨p1, hp1, q1, hq1, r1, hr1, he3, he4⟩ := h12 p2 hp2 q2 hq2 r2 hr2
  exact ⟨p1, hp1, q1, hq1, r1, hr1, he3.trans he1, he4.trans he2⟩

lemma threshInvariant_of_chainsPreserved {needsThresh : String → Bool}
    {t1 t2 : MetricsDict} (h : chainsPreserved t1 t2)
    (hinv : threshInvariant needsThresh t1) : threshInvariant needsThresh t2 := by
  intro p hp q hq r hr
  obtain ⟨p0, hp0, q0, hq0, r0, hr0, he1, he2⟩ := h p hp q hq r hr
  rw [← he1, ← he2]
  exact hinv p0 hp0 q0 hq0 r0 hr0

lemma chainsPreserved_filter (t : MetricsDict)
    (f : String × FieldsLevelsThreshesDict → Bool) : chainsPreserved t (t.filter f) :=
  fun p hp q hq r hr => ⟨p, (List.mem_filter.mp hp).1, q, hq, r, hr, rfl, rfl⟩

lemma chainsPreserved_mapFieldFilter (t : MetricsDict)
    (f : String × LevelsThreshesDict → Bool) :
    chainsPreserved t (t.map (fun p => (p.1, p.2.filter f))) := by
  intro p hp q hq r hr
  obtain ⟨p0, hp0, he⟩ := List.mem_map.mp hp
  subst he
  exact ⟨p0, hp0, q, (List.mem_filter.mp hq).1, r, hr, rfl, rfl⟩

lemma chainsPreserved_mapLevelFilter (t : MetricsDict) (f : String × ThreshList → Bool) :
    chainsPreserved t
      (t.map (fun p => (p.1, p.2.map (fun q => (q.1, q.2.filter f))))) := by
  intro p hp q hq r hr
  obtain ⟨p0, hp0, he⟩ := List.mem_map.mp hp
  subst he
  obtain ⟨q0, hq0, he2⟩ := List.mem_map.mp hq
  subst he2
  exact ⟨p0, hp0, q0, hq0, r, (List.mem_filter.mp hr).1, rfl, rfl⟩

lemma chainsPreserved_iteFilter (t u : MetricsDict) (c : Prop) [Decidable c]
    (f : String × FieldsLevelsThreshesDict → Bool) (h : chainsPreserved t u) :
    chainsPreserved t (if c then u.filter f else u) := by
  split
  · exact chainsPreserved_trans h (chainsPreserved_filter u f)
  · exact h

lemma chainsPreserved_iteMapFieldFilter (t u : MetricsDict) (c : Prop) [Decidable c]
    (f : String × LevelsThreshesDict → Bool) (h : chainsPreserved t u) :
    chainsPreserved t (if c then u.map (fun p => (p.1, p.2.filter f)) else u) := by
  split
  · exact chainsPreserved_trans h (chainsPreserved_mapFieldFilter u f)
  · exact h

lemma chainsPreserved_iteMapLevelFilter (t u : MetricsDict) (c : Prop) [Decidable c]
    (f : String × ThreshList → Bool) (h : chainsPreserved t u) :
    chainsPreserved t
      (if c then u.map (fun p => (p.1, p.2.map (fun q => (q.1, q.2.filter f)))) else u) := by
  split
  · exact chainsPreserved_trans h (chainsPreserved_mapLevelFilter u f)
  · exact h

lemma chainsPreserved_stepMetrics (validVxMetrics : List String) (argsOrig argsC : Args)
    (t : MetricsDict) : chainsPreserved t (stepMetrics validVxMetrics argsOrig argsC t) := by
  unfold stepMetrics
  exact chainsPreserved_iteFilter _ _ _ _
    (chainsPreserved_iteFilter _ _ _ _ (chainsPreserved_refl t))

lemma chainsPreserved_stepFields (validFcstFields : List String) (argsOrig argsC : Args)
    (t : MetricsDict) : chainsPreserved t (stepFields validFcstFields argsOrig argsC t) := by
  unfold stepFields pruneEmptyMetrics
  exact chainsPreserved_trans
    (chainsPreserved_iteMapFieldFilter _ _ _ _
      (chainsPreserved_iteMapFieldFilter _ _ _ _ (chainsPreserved_refl t)))
    (chainsPreserved_filter _ _)

lemma chainsPreserved_pruneEmptyFieldsThenMetrics (t : MetricsDict) :
    chainsPreserved t (pruneEmptyFieldsThenMetrics t) := by
  unfold pruneEmptyFieldsThenMetrics
  exact chainsPreserved_trans (chainsPreserved_mapFieldFilter t _)
    (chainsPreserved_filter _ _)

lemma chainsPreserved_stepLevels (validFcstLevels : List String) (argsOrig argsC : Args)
    (t : MetricsDict) : chainsPreserved t (stepLevels validFcstLevels argsOrig argsC t) := by
  unfold stepLevels
  exact chainsPreserved_trans
    (chainsPreserved_iteMapLevelFilter _ _ _ _
      (chainsPreserved_iteMapLevelFilter _ _ _ _ (chainsPreserved_refl t)))
    (chainsPreserved_pruneEmptyFieldsThenMetrics _)

lemma mem_pruneThresh {needsThresh : String → Bool} {t : MetricsDict}
    {p : String × FieldsLevelsThreshesDict} (hp : p ∈ pruneThresh needsThresh t) :
    ∃ p2 ∈ t, p.1 = p2.1 ∧ p.2 = pruneThreshFields (needsThresh p2.1) p2.2 := by
  unfold pruneThresh at hp
  obtain ⟨hmem, -⟩ := List.mem_filter.mp hp
  obtain ⟨p2, hp2, he⟩ := List.mem_map.mp hmem
  exact ⟨p2, hp2, by rw [← he], by rw [← he]⟩

lemma mem_pruneThreshFields {b : Bool} {fs : FieldsLevelsThreshesDict}
    {q : String × LevelsThreshesDict} (hq : q ∈ pruneThreshFields b fs) :
    ∃ q2 ∈ fs, q.1 = q2.1 ∧ q.2 = pruneThreshLevels b q2.2 := by
  unfold pruneThreshFields at hq
  obtain ⟨hmem, -⟩ := List.mem_filter.mp hq
  obtain ⟨q2, hq2, he⟩ := List.mem_map.mp hmem
  exact ⟨q2, hq2, by rw [← he], by rw [← he]⟩

lemma mem_pruneThreshLevels {b : Bool} {ls : LevelsThreshesDict}
    {r : String × ThreshList} (hr : r ∈ pruneThreshLevels b ls) :
    r ∈ ls ∧ ¬(b = true ∧ r.2 = []) := by
  obtain ⟨h1, h2⟩ := List.mem_filter.mp hr
  refine ⟨h1, ?_⟩
  rintro ⟨hb, hr2⟩
  rw [hb, hr2] at h2
  simp at h2

/-- The half of the threshold invariant that survives the threshold filter
passes: every leaf under a metric not requiring thresholds is empty. -/
def leavesEmptyForNoThresh (needsThresh : String → Bool) (t : MetricsDict) : Prop :=
  ∀ p ∈ t, ∀ q ∈ p.2, ∀ r ∈ q.2, needsThresh p.1 = false → r.2 = []

lemma leavesEmpty_of_invariant {needsThresh : String → Bool} {t : MetricsDict}
    (h : threshInvariant needsThresh t) : leavesEmptyForNoThresh needsThresh t := by
  intro p hp q hq r hr hn
  by_contra hne
  have := (h p hp q hq r hr).mpr hne
  rw [hn] at this
  exact Bool.false_ne_true this

lemma leavesEmpty_threshFilterInclOnly {needsThresh : String → Bool} (argsOrig argsC : Args)
    {t : MetricsDict} (h : leavesEmptyForNoThresh needsThresh t) :
    leavesEmptyForNoThresh needsThresh (threshFilterInclOnly argsOrig argsC t) := by
  unfold threshFilterInclOnly
  split
  · intro p hp q hq r hr hn
    obtain ⟨p0, hp0, hep⟩ := List.mem_map.mp hp
    subst hep
    obtain ⟨q0, hq0, heq⟩ := List.mem_map.mp hq
    subst heq
    obtain ⟨r0, hr0, her⟩ := List.mem_map.mp hr
    subst her
    have h0 := h p0 hp0 q0 hq0 r0 hr0 hn
    show threshIntersection r0.2 argsC.inclOnlyThreshes = []
    rw [h0]
    rfl
  · exact h

lemma leavesEmpty_threshFilterExcl {needsThresh : String → Bool} (argsOrig argsC : Args)
    {t : MetricsDict} (h : leavesEmptyForNoThresh needsThresh t) :
    leavesEmptyForNoThresh needsThresh (threshFilterExcl argsOrig argsC t) := by
  unfold threshFilterExcl
  split
  · intro p hp q hq r hr hn
    obtain ⟨p0, hp0, hep⟩ := List.mem_map.mp hp
    subst hep
    obtain ⟨q0, hq0, heq⟩ := List.mem_map.mp hq
    subst heq
    obtain ⟨r0, hr0, her⟩ := List.mem_map.mp hr
    subst her
    have h0 := h p0 hp0 q0 hq0 r0 hr0 hn
    show threshDifference r0.2 argsC.exclThreshes = []
    rw [h0]
    rfl
  · exact h

lemma stepThreshes_invariant (needsThresh : String → Bool) (argsOrig argsC : Args)
    (t : MetricsDict) (hinv : threshInvariant needsThresh t) :
    threshInvariant needsThresh (stepThreshes needsThresh argsOrig argsC t) := by
  have hemp : leavesEmptyForNoThresh needsThresh
      (threshFilterExcl argsOrig argsC (threshFilterInclOnly argsOrig argsC t)) :=
    leavesEmpty_threshFilterExcl argsOrig argsC
      (leavesEmpty_threshFilterInclOnly argsOrig argsC (leavesEmpty_of_invariant hinv))
  intro p hp q hq r hr
  unfold stepThreshes at hp
  obtain ⟨p2, hp2, hep, hef⟩ := mem_pruneThresh hp
  rw [hef] at hq
  obtain ⟨q2, hq2, heq, hel⟩ := mem_pruneThreshFields hq
  rw [hel] at hr
  obtain ⟨hr2, hcond⟩ := mem_pruneThreshLevels hr
  constructor
  · intro hn hre
    rw [hep] at hn
    exact hcond ⟨hn, hre⟩
  · intro hre
    by_contra hn
    have hnf : needsThresh p.1 = false := by
      cases hb : needsThresh p.1
      · rfl
      · exact absurd hb hn
    rw [hep] at hnf
    exact hre (hemp p2 hp2 q2 hq2 r hr2 hnf)

/-- C3: the threshold-requirement invariant (a leaf's threshold list is
non-empty exactly when its metric requires a threshold) holds on load whenever
the eager shape check passes, and it is preserved by each of the four
filter-plus-prune reduction steps, so every surviving leaf satisfies it after
every axis. -/
theorem C3_invariant_preserved :
    (∀ (needsThresh : String → Bool) (t : MetricsDict),
      shapeCheck needsThresh t = .ok () → threshInvariant needsThresh t) ∧
    (∀ (needsThresh : String → Bool) (validVxMetrics : List String)
       (argsOrig argsC : Args) (t : MetricsDict), threshInvariant needsThresh t →
      threshInvariant needsThresh (stepMetrics validVxMetrics argsOrig argsC t)) ∧
    (∀ (needsThresh : String → Bool) (validFcstFields : List String)
       (argsOrig argsC : Args) (t : MetricsDict), threshInvariant needsThresh t →
      threshInvariant needsThresh (stepFields validFcstFields argsOrig argsC t)) ∧
    (∀ (needsThresh : String → Bool) (validFcstLevels : List String)
       (argsOrig argsC : Args) (t : MetricsDict), threshInvariant needsThresh t →
      threshInvariant needsThresh (stepLevels validFcstLevels argsOrig argsC t)) ∧
    (∀ (needsThresh : String → Bool) (argsOrig argsC : Args) (t : MetricsDict),
      threshInvariant needsThresh t →
      threshInvariant needsThresh (stepThreshes needsThresh argsOrig argsC t)) := by
  refine ⟨?_, ?_, ?_, ?_, ?_⟩
  · intro needsThresh t h
    exact (shapeCheck_ok_iff needsThresh t).mp h
  · intro needsThresh vm argsOrig argsC t hinv
    exact threshInvariant_of_chainsPreserved
      (chainsPreserved_stepMetrics vm argsOrig argsC t) hinv
  · intro needsThresh vf argsOrig argsC t hinv
    exact threshInvariant_of_chainsPreserved
      (chainsPreserved_stepFields vf argsOrig argsC t) hinv
  · intro needsThresh vl argsOrig argsC t hinv
    exact threshInvariant_of_chainsPreserved
      (chainsPreserved_stepLevels vl argsOrig argsC t) hinv
  · exact stepThreshes_invariant

/-- Closed witness for C3: the invariant holds for the loaded example
dictionary via the shape check and is preserved by the threshold step. -/
theorem C3_invariant_preserved_witness :
    threshInvariant exampleNeedsThresh (exampleOrderTree "gt0.0" "gt1.0") ∧
    threshInvariant exampleNeedsThresh (stepThreshes exampleNeedsThresh
      (inclOnlyThreshesArgs "gt0.0") (inclOnlyThreshesArgs "gt0.0")
      (exampleOrderTree "gt0.0" "gt1.0")) :=
  ⟨C3_invariant_preserved.1 exampleNeedsThresh (exampleOrderTree "gt0.0" "gt1.0") rfl,
   C3_invariant_preserved.2.2.2.2 exampleNeedsThresh (inclOnlyThreshesArgs "gt0.0")
     (inclOnlyThreshesArgs "gt0.0") (exampleOrderTree "gt0.0" "gt1.0") (by decide)⟩

/-- C4: after each axis's filter pass and pruning, if the whole dictionary has
become empty, the reduction raises the fatal no-combinations error tagged with
that axis immediately (the later axes are never processed); and when no axis
empties the dictionary, the reduction succeeds with the fully reduced
dictionary. -/
theorem C4_empty_tree_fatal_per_axis (needsThresh : String → Bool)
    (validVxMetrics validFcstFields validFcstLevels : List String)
    (argsOrig argsC : Args) (t : MetricsDict) :
    (stepMetrics validVxMetrics argsOrig argsC t = [] →
      reduceTree needsThresh validVxMetrics validFcstFields validFcstLevels
        argsOrig argsC t = .error (.noCombosRemain .metrics)) ∧
    (stepMetrics validVxMetrics argsOrig argsC t ≠ [] →
      stepFields validFcstFields argsOrig argsC
        (stepMetrics validVxMetrics argsOrig argsC t) = [] →
      reduceTree needsThresh validVxMetrics validFcstFields validFcstLevels
        argsOrig argsC t = .error (.noCombosRemain .fields)) ∧
    (stepMetrics validVxMetrics argsOrig argsC t ≠ [] →
      stepFields validFcstFields argsOrig argsC
        (stepMetrics validVxMetrics argsOrig argsC t) ≠ [] →
      stepLevels validFcstLevels argsOrig argsC
        (stepFields validFcstFields argsOrig argsC
          (stepMetrics validVxMetrics argsOrig argsC t)) = [] →
      reduceTree needsThresh validVxMetrics validFcstFields validFcstLevels
        argsOrig argsC t = .error (.noCombosRemain .levels)) ∧
    (stepMetrics validVxMetrics argsOrig argsC t ≠ [] →
      stepFields validFcstFields argsOrig argsC
        (stepMetrics validVxMetrics argsOrig argsC t) ≠ [] →
      stepLevels validFcstLevels argsOrig argsC
        (stepFields validFcstFields argsOrig argsC
          (stepMetrics validVxMetrics argsOrig argsC t)) ≠ [] →
      stepThreshes needsThresh argsOrig argsC
        (stepLevels validFcstLevels argsOrig argsC
          (stepFields validFcstFields argsOrig argsC
            (stepMetrics validVxMetrics argsOrig argsC t))) = [] →
      reduceTree needsThresh validVxMetrics validFcstFields validFcstLevels
        argsOrig argsC t = .error (.noCombosRemain .threshes)) ∧
    (stepMetrics validVxMetrics argsOrig argsC t ≠ [] →
      stepFields validFcstFields argsOrig argsC
        (stepMetrics validVxMetrics argsOrig argsC t) ≠ [] →
      stepLevels validFcstLevels argsOrig argsC
        (stepFields validFcstFields argsOrig argsC
          (stepMetrics validVxMetrics argsOrig argsC t)) ≠ [] →
      stepThreshes needsThresh argsOrig argsC
        (stepLevels validFcstLevels argsOrig argsC
          (stepFields validFcstFields argsOrig argsC
            (stepMetrics validVxMetrics argsOrig argsC t))) ≠ [] →
      reduceTree needsThresh validVxMetrics validFcstFields validFcstLevels
        argsOrig argsC t
        = .ok (stepThreshes needsThresh argsOrig argsC
            (stepLevels validFcstLevels argsOrig argsC
              (stepFields validFcstFields argsOrig argsC
                (stepMetrics validVxMetrics argsOrig argsC t))))) := by
  refine ⟨?_, ?_, ?_, ?_, ?_⟩
  · intro h1
    unfold reduceTree
    rw [if_pos (List.isEmpty_iff.mpr h1)]
  · intro h1 h2
    unfold reduceTree
    rw [if_neg (fun hc => h1 (List.isEmpty_iff.mp hc)),
      if_pos (List.isEmpty_iff.mpr h2)]
  · intro h1 h2 h3
    unfold reduceTree
    rw [if_neg (fun hc => h1 (List.isEmpty_iff.mp hc)),
      if_neg (fun hc => h2 (List.isEmpty_iff.mp hc)),
      if_pos (List.isEmpty_iff.mpr h3)]
  · intro h1 h2 h3 h4
    unfold reduceTree
    rw [if_neg (fun hc => h1 (List.isEmpty_iff.mp hc)),
      if_neg (fun hc => h2 (List.isEmpty_iff.mp hc)),
      if_neg (fun hc => h3 (List.isEmpty_iff.mp hc)),
      if_pos (List.isEmpty_iff.mpr h4)]
  · intro h1 h2 h3 h4
    unfold reduceTree
    rw [if_neg (fun hc => h1 (List.isEmpty_iff.mp hc)),
      if_neg (fun hc => h2 (List.isEmpty_iff.mp hc)),
      if_neg (fun hc => h3 (List.isEmpty_iff.mp hc)),
      if_neg (fun hc => h4 (List.isEmpty_iff.mp hc))]

/-- An argument record passing the single metric bias to `--excl_metrics`. -/
def exclBiasArgs : Args :=
  { inclOnlyMetrics := [], exclMetrics := ["bias"], inclOnlyFields := [], exclFields := [],
    inclOnlyLevels := [], exclLevels := [], inclOnlyThreshes := [], exclThreshes := [] }

/-- Closed witness for C4: for the dictionary bias -> tmp -> 2m -> [] with
bias excluded, the reduction fails with the no-combinations error of the
metric axis, before any field, level, or threshold filtering. -/
theorem C4_empty_tree_fatal_per_axis_witness :
    reduceTree exampleNeedsThresh ["auc", "bias"] [] [] exclBiasArgs exclBiasArgs
      [("bias", [("tmp", [("2m", [])])])] = .error (.noCombosRemain .metrics) :=
  (C4_empty_tree_fatal_per_axis exampleNeedsThresh ["auc", "bias"] [] []
    exclBiasArgs exclBiasArgs [("bias", [("tmp", [("2m", [])])])]).1 (by decide)

/-- The values of an axis appearing anywhere in the plot configuration
dictionary (the per-axis presence test of lines 262-413 and 716-824). -/
def valuesInDict (ax : Axis) (t : MetricsDict) : List String :=
  match ax with
  | .metrics => metricsInDict t
  | .fields => fieldsInDict t
  | .levels => levelsInDict t
  | .threshes => threshesInDict t

/-- The `--incl_only_*` option name of an axis, as it is printed in warnings. -/
def inclOnlyOptionName : Axis → String
  | .metrics => "incl_only_metrics"
  | .fields => "incl_only_fields"
  | .levels => "incl_only_levels"
  | .threshes => "incl_only_threshes"

lemma cleanArgs_ok_spec {args : Args} {t : MetricsDict} {argsC : Args} {ws1 : List Warn}
    (h : cleanArgs args t = .ok (argsC, ws1)) :
    (∀ ax : Axis, argsC.inclOnly ax
      = (args.inclOnly ax).filter (fun v => decide (v ∈ valuesInDict ax t))) ∧
    ∀ ax : Axis, ∀ m ∈ args.inclOnly ax, m ∉ valuesInDict ax t →
      Warn.valueNotInConfig (inclOnlyOptionName ax) m ∈ ws1 := by
  simp only [cleanArgs] at h
  split_ifs at h with h1 h2 h3 h4
  simp only [Except.ok.injEq, Prod.mk.injEq] at h
  obtain ⟨ha, hb⟩ := h
  subst ha
  subst hb
  constructor
  · intro ax
    cases ax <;> rfl
  · intro ax m hm hmt
    cases ax with
    | metrics =>
      have hmt2 : m ∉ metricsInDict t := hmt
      refine List.mem_append_left _ (List.mem_append_left _ (List.mem_append_left _
        (List.mem_append_left _ (List.mem_append_left _ (List.mem_append_left _
          (List.mem_append_left _ ?_))))))
      exact List.mem_map_of_mem _ (List.mem_filter.mpr ⟨hm, by simp [hmt2]⟩)
    | fields =>
      have hmt2 : m ∉ fieldsInDict t := hmt
      refine List.mem_append_left _ (List.mem_append_left _ (List.mem_append_left _
        (List.mem_append_left _ (List.mem_append_left _ (List.mem_append_right _ ?_)))))
      exact List.mem_map_of_mem _ (List.mem_filter.mpr ⟨hm, by simp [hmt2]⟩)
    | levels =>
      have hmt2 : m ∉ levelsInDict t := hmt
      refine List.mem_append_left _ (List.mem_append_left _ (List.mem_append_left _
        (List.mem_append_right _ ?_)))
      exact List.mem_map_of_mem _ (List.mem_filter.mpr ⟨hm, by simp [hmt2]⟩)
    | threshes =>
      have hmt2 : m ∉ threshesInDict t := hmt
      refine List.mem_append_left _ (List.mem_append_right _ ?_)
      exact List.mem_map_of_mem _ (List.mem_filter.mpr ⟨hm, by simp [hmt2]⟩)

lemma mem_deadFilterWarnings {argsC : Args} {t4 : MetricsDict} (ax : Axis) (m : String)
    (hm : m ∈ argsC.inclOnly ax) (hdead : m ∉ valuesInDict ax t4) :
    Warn.deadInclOnlyValue (inclOnlyOptionName ax) m ∈ deadFilterWarnings argsC t4 := by
  unfold deadFilterWarnings
  cases ax with
  | metrics =>
    have hdead2 : m ∉ metricsInDict t4 := hdead
    refine List.mem_append_left _ (List.mem_append_left _ (List.mem_append_left _ ?_))
    exact List.mem_map_of_mem _ (List.mem_filter.mpr ⟨hm, by simp [hdead2]⟩)
  | fields =>
    have hdead2 : m ∉ fieldsInDict t4 := hdead
    refine List.mem_append_left _ (List.mem_append_left _ (List.mem_append_right _ ?_))
    exact List.mem_map_of_mem _ (List.mem_filter.mpr ⟨hm, by simp [hdead2]⟩)
  | levels =>
    have hdead2 : m ∉ levelsInDict t4 := hdead
    refine List.mem_append_left _ (List.mem_append_right _ ?_)
    exact List.mem_map_of_mem _ (List.mem_filter.mpr ⟨hm, by simp [hdead2]⟩)
  | threshes =>
    have hdead2 : m ∉ threshesInDict t4 := hdead
    refine List.mem_append_right _ ?_
    exact List.mem_map_of_mem _ (List.mem_filter.mpr ⟨hm, by simp [hdead2]⟩)

/-- C8: for every axis, a value passed to the `--incl_only_*` option of that
axis that does not appear anywhere in the final reduced dictionary of a
successful (non-aborting) run is named by a warning for that option: either
the early warning for a value absent from the plot configuration file
(lines 262-413), or the final dead-filter warning for a value filtered away
during reduction (lines 716-824). -/
theorem C8_dead_filter_warning (needsThresh : String → Bool)
    (validVxMetrics validFcstFields validFcstLevels validThreshesForDb : List String)
    (args : Args) (t tFinal : MetricsDict) (ws : List Warn) (ax : Axis) (m : String)
    (hok : makeMultiReduce needsThresh validVxMetrics validFcstFields validFcstLevels
      validThreshesForDb args t = .ok (tFinal, ws))
    (hm : m ∈ args.inclOnly ax) (hdead : m ∉ valuesInDict ax tFinal) :
    Warn.valueNotInConfig (inclOnlyOptionName ax) m ∈ ws ∨
      Warn.deadInclOnlyValue (inclOnlyOptionName ax) m ∈ ws := by
  unfold makeMultiReduce at hok
  cases hv : validateThreshesVsDb args.inclOnlyThreshes args.exclThreshes
      validThreshesForDb with
  | error e =>
    rw [hv] at hok
    simp at hok
  | ok u =>
    cases u
    rw [hv] at hok
    simp only [] at hok
    cases hs : shapeCheck needsThresh t with
    | error e =>
      rw [hs] at hok
      simp at hok
    | ok u =>
      cases u
      rw [hs] at hok
      simp only [] at hok
      cases hc : cleanArgs args t with
      | error e =>
        rw [hc] at hok
        simp at hok
      | ok pr =>
        obtain ⟨argsC, ws1⟩ := pr
        rw [hc] at hok
        simp only [] at hok
        cases hr : reduceTree needsThresh validVxMetrics validFcstFields validFcstLevels
            args argsC t with
        | error e =>
          rw [hr] at hok
          simp at hok
        | ok t4 =>
          rw [hr] at hok
          simp only [Except.ok.injEq, Prod.mk.injEq] at hok
          obtain ⟨ht4, hws⟩ := hok
          subst ht4
          subst hws
          obtain ⟨hincl, hwarn⟩ := cleanArgs_ok_spec hc
          by_cases hmt : m ∈ valuesInDict ax t
          · right
            refine List.mem_append_right _ ?_
            refine mem_deadFilterWarnings ax m ?_ hdead
            rw [hincl ax]
            exact List.mem_filter.mpr ⟨hm, by simp [hmt]⟩
          · left
            exact List.mem_append_left _ (hwarn ax m hm hmt)

/-- An argument record passing the metrics bias and auc to
`--incl_only_metrics`. -/
def inclBiasAucArgs : Args :=
  { inclOnlyMetrics := ["bias", "auc"], exclMetrics := [], inclOnlyFields := [],
    exclFields := [], inclOnlyLevels := [], exclLevels := [], inclOnlyThreshes := [],
    exclThreshes := [] }

/-- Closed witness for C8: for the dictionary bias -> tmp -> 2m -> [] with
incl-only metrics [bias, auc], the run succeeds, the final dictionary still
contains bias -> tmp -> 2m, and the single warning names auc. -/
theorem C8_dead_filter_warning_witness :
    makeMultiReduce exampleNeedsThresh ["auc", "bias"] [] [] [] inclBiasAucArgs
      [("bias", [("tmp", [("2m", [])])])]
      = .ok ([("bias", [("tmp", [("2m", [])])])],
          [Warn.valueNotInConfig "incl_only_metrics" "auc"]) ∧
    (Warn.valueNotInConfig "incl_only_metrics" "auc"
        ∈ [Warn.valueNotInConfig "incl_only_metrics" "auc"] ∨
      Warn.deadInclOnlyValue "incl_only_metrics" "auc"
        ∈ [Warn.valueNotInConfig "incl_only_metrics" "auc"]) := by
  have hok : makeMultiReduce exampleNeedsThresh ["auc", "bias"] [] [] [] inclBiasAucArgs
      [("bias", [("tmp", [("2m", [])])])]
      = .ok ([("bias", [("tmp", [("2m", [])])])],
          [Warn.valueNotInConfig "incl_only_metrics" "auc"]) := rfl
  exact ⟨hok, C8_dead_filter_warning exampleNeedsThresh ["auc", "bias"] [] [] []
    inclBiasAucArgs [("bias", [("tmp", [("2m", [])])])]
    [("bias", [("tmp", [("2m", [])])])]
    [Warn.valueNotInConfig "incl_only_metrics" "auc"] .metrics "auc" hok
    (by decide) (by decide)⟩
